import Mathlib

/-!
Verification development for the AWRS registry lookup service (`src/main.py`).

The Python source is a single linear pipeline over strings and parsed HTML.
We embed it shallowly:

* pure string helpers (`format_awrs`, `normalise_status`) become Lean
  functions over `String` (ASCII model of Python's `upper`/`lower`/`strip`);
* the parsed HTML document (`BeautifulSoup` object) becomes an `HtmlDoc`
  record holding exactly the observations the code makes of it: the list of
  `dt` terms with their following `dd` sibling, the full document text, the
  `a`/`form` elements scanned for the "check a urn" link, the `form`
  elements, and the `input` elements;
* the two regular-expression searches in `find_after_label` become a small
  backtracking matcher specialised to the shapes of the two patterns
  (a case-insensitive literal, `\s*`, `:?`, a literal newline, and a final
  greedy capture `([^\n\r]+)`), with the standard leftmost search and
  greedy/backtracking order of Python's `re.search`.  The matcher carries a
  fuel argument so that it is structurally recursive; the wrapper supplies
  fuel that exceeds the maximal possible recursion depth (one unit per
  pattern element plus one per candidate split point of each `\s*`);
* the network is an `Env` record giving the three responses the session can
  receive (landing page, optional "check a urn" page, search submission);
  a result timestamp is passed in as a string.  The form payload that the
  code assembles (hidden fields plus the formatted URN) is posted to the
  site, but the response is given by `Env`, so the payload itself is not
  observable in the result and is not modelled further.
-/

/-- Python ASCII whitespace, the characters matched by `str.strip()`,
`str.split()` and the regex class `\s` on ASCII text. -/
def isPyWs (c : Char) : Bool :=
  c = ' ' || c = '\t' || c = '\n' || c = '\r' || c = '\x0b' || c = '\x0c'

/-- Python `str.strip()` on a list of characters. -/
def pyStripList (cs : List Char) : List Char :=
  ((cs.dropWhile isPyWs).reverse.dropWhile isPyWs).reverse

/-- Python `str.strip()`. -/
def pyStrip (s : String) : String :=
  String.mk (pyStripList s.data)

/-- Python `str.lower()` (ASCII model). -/
def pyLower (s : String) : String :=
  String.mk (s.data.map Char.toLower)

/-- Python `str.upper()` (ASCII model). -/
def pyUpper (s : String) : String :=
  String.mk (s.data.map Char.toUpper)

/-- Python truthiness-based `or` on strings: `a or b`. -/
def pyOrStr (a b : String) : String :=
  if a = "" then b else a

/-- Python `a or b` where `a`, `b` are optional strings (`None` and `""` are
falsy). -/
def pyOrOpt (a b : Option String) : Option String :=
  match a with
  | some s => if s = "" then b else some s
  | none => b

/-- Python `str.split()` with no arguments: split on whitespace runs,
dropping empty pieces.  `acc` holds the characters of the current word in
reverse. -/
def pySplitAux : List Char → List Char → List (List Char)
  | [], acc => if acc.isEmpty then [] else [acc.reverse]
  | c :: cs, acc =>
    if isPyWs c then
      if acc.isEmpty then pySplitAux cs [] else acc.reverse :: pySplitAux cs []
    else
      pySplitAux cs (c :: acc)

/-- Join a list of words with single spaces. -/
def joinSpace : List (List Char) → List Char
  | [] => []
  | [w] => w
  | w :: ws => w ++ ' ' :: joinSpace ws

/-- Python `' '.join(s.split()).strip()`: collapse internal whitespace runs to
single spaces and trim (the trailing `strip` of the source is kept, though
the join of the split already has no edge whitespace). -/
def collapseWs (s : String) : String :=
  pyStrip (String.mk (joinSpace (pySplitAux s.data [])))

/-- Case-insensitive (ASCII) prefix test on character lists. -/
def isPrefB : List Char → List Char → Bool
  | [], _ => true
  | _ :: _, [] => false
  | a :: as, b :: bs => (a.toLower = b.toLower) && isPrefB as bs

/-- Case-insensitive literal match dropping the matched prefix, `none` when
the text does not start with the literal. -/
def dropLitCI : List Char → List Char → Option (List Char)
  | [], cs => some cs
  | _ :: _, [] => none
  | p :: ps, c :: cs => if p.toLower = c.toLower then dropLitCI ps cs else none

/-- Exact (case-sensitive) prefix test, Python `str.startswith`. -/
def startsWithB : List Char → List Char → Bool
  | [], _ => true
  | _ :: _, [] => false
  | p :: ps, c :: cs => (p = c) && startsWithB ps cs

/-- Substring test (Python `needle in hay`), case-sensitive. -/
def containsB (needle : List Char) : List Char → Bool
  | [] => needle.isEmpty
  | c :: cs => startsWithB needle (c :: cs) || containsB needle cs

/-- Elements of the two regular expressions used by `find_after_label`:
`label\s*:?\s*([^\n\r]+)` and `label\s*\n\s*([^\n\r]+)`, compiled with
`re.IGNORECASE` and with `re.escape` applied to the label (so the label is a
literal). -/
inductive RElem where
  /-- a literal string, matched case-insensitively (`re.IGNORECASE`) -/
  | lit (s : String)
  /-- the greedy `\s*` -/
  | wsStar
  /-- the greedy `:?` -/
  | colonOpt
  /-- a literal newline `\n` -/
  | nlChar
  /-- the final greedy capture group `([^\n\r]+)` -/
  | capLine
  deriving DecidableEq, Repr

mutual

/-- Backtracking match of a pattern suffix against the text, returning the
capture of the final `([^\n\r]+)` group on success.  Alternatives are tried
in Python's order: literals have no alternatives; `:?` prefers consuming a
colon; `\s*` prefers the longest whitespace run (see `tryStarF`); the final
capture group, having no pattern after it, succeeds exactly on a non-empty
maximal run of non-newline characters.  `fuel` only bounds the recursion
depth so that the definition is structural; the wrapper `reMatchAt` supplies
more fuel than any path can consume. -/
def tryMatchF : Nat → List RElem → List Char → Option String
  | 0, _, _ => none
  | _ + 1, [], _ => none
  | fuel + 1, .lit s :: ps, cs =>
    match dropLitCI s.data cs with
    | some rest => tryMatchF fuel ps rest
    | none => none
  | fuel + 1, .colonOpt :: ps, cs =>
    match cs with
    | ':' :: rest =>
      match tryMatchF fuel ps rest with
      | some r => some r
      | none => tryMatchF fuel ps cs
    | _ => tryMatchF fuel ps cs
  | fuel + 1, .nlChar :: ps, cs =>
    match cs with
    | '\n' :: rest => tryMatchF fuel ps rest
    | _ => none
  | fuel + 1, .wsStar :: ps, cs =>
    tryStarF fuel ps cs ((cs.takeWhile isPyWs).length)
  | _ + 1, .capLine :: _, cs =>
    let cap := cs.takeWhile fun c => !(c = '\n' || c = '\r')
    if cap.isEmpty then none else some (String.mk cap)

/-- Greedy `\s*`: try consuming `k` whitespace characters, backing off one at
a time on failure (`k` starts at the length of the whitespace run). -/
def tryStarF : Nat → List RElem → List Char → Nat → Option String
  | 0, _, _, _ => none
  | fuel + 1, ps, cs, k =>
    match tryMatchF fuel ps (cs.drop k) with
    | some r => some r
    | none =>
      match k with
      | 0 => none
      | k' + 1 => tryStarF fuel ps cs k'

end

/-- Attempt the pattern at the start of `cs`, with ample fuel: a recursion
path visits each pattern element at most once and, for each `\s*`, at most
`cs.length + 1` backoff steps, so `(pat.length + 2) * (cs.length + 2)` units
of fuel can never be exhausted. -/
def reMatchAt (pat : List RElem) (cs : List Char) : Option String :=
  tryMatchF ((pat.length + 2) * (cs.length + 2)) pat cs

/-- Python `re.search`: try the pattern at each position, leftmost first. -/
def reSearch (pat : List RElem) : List Char → Option String
  | [] => reMatchAt pat []
  | c :: cs =>
    match reMatchAt pat (c :: cs) with
    | some r => some r
    | none => reSearch pat cs

/-- The pattern `rf"{re.escape(label)}\s*:?\s*([^\n\r]+)"`. -/
def inlinePat (label : String) : List RElem :=
  [.lit label, .wsStar, .colonOpt, .wsStar, .capLine]

/-- The pattern `rf"{re.escape(label)}\s*\n\s*([^\n\r]+)"`. -/
def nextLinePat (label : String) : List RElem :=
  [.lit label, .wsStar, .nlChar, .wsStar, .capLine]

/-- An `a` or `form` element as seen by the "check a urn" scan: its text and
its `href` and `action` attributes. -/
structure LinkEl where
  text : String
  href : Option String
  action : Option String
  deriving DecidableEq, Repr

/-- An `input` element: its `name` and `type` attributes. -/
structure InputEl where
  name : Option String
  typeAttr : Option String
  deriving DecidableEq, Repr

/-- A parsed HTML document, holding exactly the observations the source makes
of a `BeautifulSoup` object. -/
structure HtmlDoc where
  /-- for each `dt` element in order: its text, and the text of its first
  following `dd` sibling when there is one (`dt.find_next_sibling('dd')`) -/
  dts : List (String × Option String)
  /-- `soup.get_text()`, the text of the whole document -/
  text : String
  /-- the `a` and `form` elements in document order, for the navigation scan -/
  links : List LinkEl
  /-- the `action` attribute of each `form` element in order (`none` when the
  attribute is absent); `soup.find('form')` is the head of this list -/
  forms : List (Option String)
  /-- the `input` elements in document order -/
  inputs : List InputEl
  deriving DecidableEq, Repr

/-- Strategy 1 of `find_after_label`: the first `dt` whose stripped,
lowercased text equals the lowercased label and that has a following `dd`
sibling; the value is the `dd` text with whitespace collapsed.  A matching
`dt` without a `dd` sibling does not stop the scan. -/
def strategyDl (label : String) (doc : HtmlDoc) : Option String :=
  match doc.dts.find? fun e =>
      (pyLower (pyStrip e.1) = pyLower label) && e.2.isSome with
  | some e => some (collapseWs (e.2.getD ""))
  | none => none

/-- Strategy 2 of `find_after_label`: `re.search` of the inline
`label: value` pattern over the document text, the capture stripped. -/
def strategyInline (label : String) (doc : HtmlDoc) : Option String :=
  (reSearch (inlinePat label) doc.text.data).map pyStrip

/-- Strategy 3 of `find_after_label`: `re.search` of the label-then-next-line
pattern over the document text, the capture stripped. -/
def strategyNextLine (label : String) (doc : HtmlDoc) : Option String :=
  (reSearch (nextLinePat label) doc.text.data).map pyStrip

/-- Definition `find_after_label` from the source: try the three strategies in order and
return the result of the first one that matches, the empty string when none
does.  (The `try/except` wrapper of the source has no effect in the pure
model.) -/
def find_after_label (label : String) (doc : HtmlDoc) : String :=
  match strategyDl label doc with
  | some v => v
  | none =>
    match strategyInline label doc with
    | some v => v
    | none =>
      match strategyNextLine label doc with
      | some v => v
      | none => ""


/-- ASCII letter or digit, the character class `[A-Za-z0-9]` of the
`re.sub` in `format_awrs` (and of Python's `isalpha`/`isdigit` on its ASCII
result). -/
def isAsciiAlnum (c : Char) : Bool :=
  c.isAlpha || c.isDigit

/-- The working string of `format_awrs`:
`re.sub(r"[^A-Za-z0-9]", "", (urn or "").upper())`. -/
def stripUpper (urn : String) : List Char :=
  (urn.data.map Char.toUpper).filter isAsciiAlnum

/-- The f-string `f"{u[:4]} {u[4:8]} {u[8:12]} {u[12:]}"`: regroup as
`"LLLL DDDD DDDD DDD"`. -/
def groupURN (u : List Char) : String :=
  String.mk ((u.take 4) ++ ' ' :: ((u.drop 4).take 4) ++ ' ' ::
    (((u.drop 4).drop 4).take 4) ++ ' ' :: ((u.drop 4).drop 8))

/-- Definition `format_awrs` from the source: uppercase, drop every character outside
`[A-Za-z0-9]`; if the remainder is 4 letters followed by 11 digits, regroup
it as `"LLLL DDDD DDDD DDD"`, otherwise return the input stripped and
uppercased. -/
def format_awrs (urn : String) : String :=
  let u := stripUpper urn
  if u.length = 15 && (u.take 4).all Char.isAlpha && (u.drop 4).all Char.isDigit then
    groupURN u
  else
    pyUpper (pyStrip urn)


/-- The comparison key of `normalise_status`, Python `s = (raw or "").strip().lower()`. -/
def statusKey (raw : String) : String :=
  pyLower (pyStrip raw)

/-- Definition `normalise_status` from the source: strip and lowercase, then match the
fixed table, returning the stripped original when no rule applies. -/
def normalise_status (raw : String) : String :=
  let s := statusKey raw
  if s = "approved" then "Approved"
  else if s = "not approved" ∨ s = "no longer approved" ∨ s = "no-longer approved" then
    "Not Approved"
  else if s = "no match" ∨ s = "no results found" then "No Match"
  else if s = "deregistered" ∨ s = "removed" ∨ s = "revoked" ∨ s = "application withdrawn" then
    "Deregistered"
  else if s = "not applicable" then "Approved"
  else if s = "" then "Unknown"
  else pyStrip raw


/-- One HTTP response as the session observes it: the status code and the
parsed body. -/
structure HttpResponse where
  statusCode : Nat
  doc : HtmlDoc
  deriving DecidableEq, Repr

/-- The environment of one lookup: the three responses the registry site can
return (the landing page, the optional "check a urn" page, and the search
submission).  Each lookup uses a fresh session, so one `Env` per call. -/
structure Env where
  landing : HttpResponse
  checkUrn : HttpResponse
  search : HttpResponse
  deriving DecidableEq, Repr

/-- The result record assembled by `lookup_single_awrs`.  `error` is `some`
exactly in the dictionaries of the error returns, which carry an `error`
key; the success dictionary has none. -/
structure LookupResult where
  success : Bool
  status : String
  error : Option String
  business_name : String
  address : String
  deregistration_date : String
  effective_date : String
  urn : String
  awrs_number : String
  supplier_name : String
  search_timestamp : String
  deriving DecidableEq, Repr

/-- The error dictionary returned at each failure point of
`lookup_single_awrs`: the source repeats this literal at every error return,
with only the message differing. -/
def errorResult (msg awrs supplier ts : String) : LookupResult :=
  { success := false
    status := "Error"
    error := some msg
    business_name := ""
    address := ""
    deregistration_date := ""
    effective_date := ""
    urn := ""
    awrs_number := awrs
    supplier_name := supplier
    search_timestamp := ts }

/-- The result of the top-level `except` clause of `lookup_single_awrs`,
which converts any raised exception with description `msg` into an error
dictionary. -/
def lookupExceptionResult (msg awrs supplier ts : String) : LookupResult :=
  errorResult ("Error during AWRS lookup: " ++ msg) awrs supplier ts

/-- The "check a urn" navigation scan: the first `a` or `form` element whose
text is non-empty and contains `"check a urn"` case-insensitively yields
`link.get('href') or link.get('action')`. -/
def checkUrnUrl (doc : HtmlDoc) : Option String :=
  match doc.links.find? fun l =>
      (!(l.text = "")) && containsB "check a urn".data (pyLower l.text).data with
  | some l => pyOrOpt l.href l.action
  | none => none

/-- The working document after the navigation step: when a truthy
"check a urn" URL was found and it is relative (does not start with
`"http"`), the `checkUrn` page is fetched (its status is not checked) and
replaces the landing document; otherwise the landing document stands. -/
def navDoc (env : Env) : HtmlDoc :=
  match checkUrnUrl env.landing.doc with
  | some u =>
    if u ≠ "" && !(startsWithB "http".data u.data) then env.checkUrn.doc
    else env.landing.doc
  | none => env.landing.doc

/-- Predicate for `soup.find('form')` succeeding: the document has at least one form. -/
def formFound (doc : HtmlDoc) : Bool :=
  !doc.forms.isEmpty

/-- The text-input selection succeeds: one of the selectors
`input[name="value"]`, `input[name="query"]`, `input[type="text"]`, tried in
order, matches some element.  (Only the name of the chosen input is used, as
a key of the posted payload, so the choice itself is not observable in the
result.) -/
def textInputFound (doc : HtmlDoc) : Bool :=
  doc.inputs.any (fun i => i.name = some "value") ||
  doc.inputs.any (fun i => i.name = some "query") ||
  doc.inputs.any (fun i => i.typeAttr = some "text")

/-- The raw status extracted from the results page: `"Status"`, then
`"Application status"`, then `"Registration status"`, first non-empty wins
(Python `or`). -/
def extractedStatus (rdoc : HtmlDoc) : String :=
  pyOrStr (find_after_label "Status" rdoc)
    (pyOrStr (find_after_label "Application status" rdoc)
      (find_after_label "Registration status" rdoc))

/-- The status after the normalisation step `if status: status =
normalise_status(status)`. -/
def statusAfterNormalise (rdoc : HtmlDoc) : String :=
  let s := extractedStatus rdoc
  if s = "" then s else normalise_status s

/-- The address extracted from the results page. -/
def addressExtracted (rdoc : HtmlDoc) : String :=
  pyOrStr (find_after_label "Principal place of business" rdoc)
    (pyOrStr (find_after_label "Business address" rdoc)
      (find_after_label "Address" rdoc))

/-- The deregistration date extracted from the results page. -/
def deregExtracted (rdoc : HtmlDoc) : String :=
  find_after_label "Date of deregistration" rdoc

/-- The effective date extracted from the results page. -/
def effectiveExtracted (rdoc : HtmlDoc) : String :=
  pyOrStr (find_after_label "Effective date of registration" rdoc)
    (find_after_label "Registration date" rdoc)

/-- The URN extracted from the results page. -/
def urnExtracted (rdoc : HtmlDoc) : String :=
  pyOrStr (find_after_label "URN" rdoc) (find_after_label "AWRS URN" rdoc)

/-- The guard of the "not applicable" special case: the extracted
deregistration date is truthy and equals `"not applicable"` after stripping
and lowercasing. -/
def deregIsNA (rdoc : HtmlDoc) : Bool :=
  (!(deregExtracted rdoc = "")) &&
    pyLower (pyStrip (deregExtracted rdoc)) = "not applicable"

/-- The status after the "not applicable" special case: when the guard fires
and the status is empty or `"Unknown"`, it becomes `"Approved"`. -/
def statusFinal (rdoc : HtmlDoc) : String :=
  if deregIsNA rdoc &&
      (statusAfterNormalise rdoc = "" || statusAfterNormalise rdoc = "Unknown") then
    "Approved"
  else statusAfterNormalise rdoc

/-- The deregistration date after the special case: blanked when the guard
fires. -/
def deregFinal (rdoc : HtmlDoc) : String :=
  if deregIsNA rdoc then "" else deregExtracted rdoc

/-- Definition `lookup_single_awrs` from the source, over an environment of responses
and a timestamp.  The hidden-field collection and form payload built between
the input check and the submission only feed the posted request, whose
response `env.search` is part of the environment, so they do not appear.
The top-level `except` clause corresponds to `lookupExceptionResult`. -/
def lookup_single_awrs (awrs_number supplier_name : String) (env : Env)
    (ts : String) : LookupResult :=
  if env.landing.statusCode ≠ 200 then
    errorResult ("Failed to access HMRC website: " ++ toString env.landing.statusCode)
      awrs_number supplier_name ts
  else if ¬ formFound (navDoc env) then
    errorResult "Could not find search form on HMRC website" awrs_number supplier_name ts
  else if ¬ textInputFound (navDoc env) then
    errorResult "Could not find text input field" awrs_number supplier_name ts
  else if env.search.statusCode ≠ 200 then
    errorResult ("Search failed with status: " ++ toString env.search.statusCode)
      awrs_number supplier_name ts
  else
    { success := true
      status := pyOrStr (statusFinal env.search.doc) "Unknown"
      error := none
      business_name := pyOrStr (find_after_label "Business name" env.search.doc) "Not found"
      address := pyOrStr (addressExtracted env.search.doc) ""
      deregistration_date := pyOrStr (deregFinal env.search.doc) ""
      effective_date := pyOrStr (effectiveExtracted env.search.doc) ""
      urn := pyOrStr (urnExtracted env.search.doc) (format_awrs awrs_number)
      awrs_number := awrs_number
      supplier_name := supplier_name
      search_timestamp := ts }

/-- A JSON scalar of the response bodies. -/
inductive JVal where
  | s (v : String)
  | b (v : Bool)
  deriving DecidableEq, Repr

/-- A JSON object, as the ordered association list `jsonify` serialises. -/
abbrev JObj := List (String × JVal)

/-- Look a key up in a JSON object. -/
def jsonGet (o : JObj) (k : String) : Option JVal :=
  (o.find? fun p => p.1 = k).map (·.2)

/-- The request body of `POST /`: the two fields the handler reads, absent
keys modelled as `none` (`request.json or {}` with `.get` defaults). -/
structure WebhookBody where
  awrs_number : Option String
  supplier_name : Option String
  deriving DecidableEq, Repr

/-- Serialisation `jsonify(result)` of a lookup dictionary, in the key order of the source:
error dictionaries carry an `error` key after `status`, the success
dictionary has none. -/
def resultJson (r : LookupResult) : JObj :=
  match r.error with
  | some e =>
    [("success", .b r.success), ("status", .s r.status), ("error", .s e),
     ("business_name", .s r.business_name), ("address", .s r.address),
     ("deregistration_date", .s r.deregistration_date),
     ("effective_date", .s r.effective_date), ("urn", .s r.urn),
     ("awrs_number", .s r.awrs_number), ("supplier_name", .s r.supplier_name),
     ("search_timestamp", .s r.search_timestamp)]
  | none =>
    [("success", .b r.success), ("status", .s r.status),
     ("business_name", .s r.business_name), ("address", .s r.address),
     ("deregistration_date", .s r.deregistration_date),
     ("effective_date", .s r.effective_date), ("urn", .s r.urn),
     ("awrs_number", .s r.awrs_number), ("supplier_name", .s r.supplier_name),
     ("search_timestamp", .s r.search_timestamp)]

/-- The handler's immediate response when no AWRS number was provided.  As in
the source, it has no `awrs_number` and no `supplier_name` key. -/
def noNumberJson (ts : String) : JObj :=
  [("success", .b false), ("status", .s "Error"),
   ("error", .s "No AWRS number provided"),
   ("business_name", .s ""), ("address", .s ""),
   ("deregistration_date", .s ""), ("effective_date", .s ""), ("urn", .s ""),
   ("search_timestamp", .s ts)]

/-- The handler's `except` response for an exception with description `msg`.
As in the source, it has no `awrs_number` and no `supplier_name` key. -/
def handlerExceptionJson (msg ts : String) : JObj :=
  [("success", .b false), ("status", .s "Error"), ("error", .s msg),
   ("business_name", .s ""), ("address", .s ""),
   ("deregistration_date", .s ""), ("effective_date", .s ""), ("urn", .s ""),
   ("search_timestamp", .s ts)]

/-- Definition `webhook_handler` from the source: read and strip `awrs_number`, default
`supplier_name` to `""`; an empty number short-circuits to `noNumberJson`
without touching the network; otherwise the lookup runs and its dictionary
is serialised. -/
def webhook_handler (data : WebhookBody) (env : Env) (ts : String) : JObj :=
  let awrs := pyStrip (data.awrs_number.getD "")
  let supplier := data.supplier_name.getD ""
  if awrs = "" then noNumberJson ts
  else resultJson (lookup_single_awrs awrs supplier env ts)

/-- Modelled from the spec: the Identifier Formatter contract of §4.1 as the
claim words it — strip every character that is not a letter or digit, then
uppercase the remainder (the source uppercases first and then strips; the
two orders are compared by the claim's theorem). -/
def format_spec (urn : String) : String :=
  let u := (urn.data.filter isAsciiAlnum).map Char.toUpper
  if u.length = 15 && (u.take 4).all Char.isAlpha && (u.drop 4).all Char.isDigit then
    groupURN u
  else
    pyUpper (pyStrip urn)

/-- Modelled from the spec: the Status Normalizer table of §4.3 as the claim
groups it, with `"approved"` and `"not applicable"` both mapping to
`"Approved"`. -/
def normalise_spec (raw : String) : String :=
  let s := statusKey raw
  if s = "approved" ∨ s = "not applicable" then "Approved"
  else if s = "not approved" ∨ s = "no longer approved" ∨ s = "no-longer approved" then
    "Not Approved"
  else if s = "no match" ∨ s = "no results found" then "No Match"
  else if s = "deregistered" ∨ s = "removed" ∨ s = "revoked" ∨ s = "application withdrawn" then
    "Deregistered"
  else if s = "" then "Unknown"
  else pyStrip raw

/-- Modelled from the spec: the extractor as the claim words it — the value
of the first strategy whose result is non-empty, the empty string when all
three find nothing. -/
def extract_spec (label : String) (doc : HtmlDoc) : String :=
  let v1 := (strategyDl label doc).getD ""
  if v1 ≠ "" then v1
  else
    let v2 := (strategyInline label doc).getD ""
    if v2 ≠ "" then v2
    else (strategyNextLine label doc).getD ""

/-- A string in canonical 15-character URN form: its alphanumeric core is 4
letters followed by 11 digits, and the string is exactly that core spaced in
groups of 4, 4, 4 and 3 (a correctly spaced URN). -/
def IsCanonical (x : String) : Prop :=
  (stripUpper x).length = 15 ∧
  ((stripUpper x).take 4).all Char.isAlpha = true ∧
  ((stripUpper x).drop 4).all Char.isDigit = true ∧
  x = groupURN (stripUpper x)

instance : DecidablePred IsCanonical := fun x => by
  unfold IsCanonical; infer_instance

/-- A document with nothing in it. -/
def emptyDoc : HtmlDoc :=
  { dts := [], text := "", links := [], forms := [], inputs := [] }

/-- A landing page with a search form and a text input named `value`, as the
real site presents. -/
def landingOkDoc : HtmlDoc :=
  { dts := []
    text := ""
    links := []
    forms := [some "/check-the-awrs-register/search"]
    inputs := [⟨some "value", some "text"⟩] }

/-- A results page showing an approved registration in a definition list,
with the matching document text. -/
def resultsApprovedDoc : HtmlDoc :=
  { dts := [("Status", some "Approved")]
    text := "Status\nApproved"
    links := []
    forms := []
    inputs := [] }

/-- A results page whose deregistration date reads `"Not Applicable"` and
that shows no status label at all. -/
def deregNADoc : HtmlDoc :=
  { dts := [("Date of deregistration", some "Not Applicable")]
    text := "Date of deregistration\nNot Applicable"
    links := []
    forms := []
    inputs := [] }

/-- A document whose definition list pairs the term `Status` with an empty
definition while the plain text later carries `Status: Approved` — for
example `<dl><dt>Status</dt><dd></dd></dl><p>Status: Approved</p>` laid out
on separate lines. -/
def emptyDdDoc : HtmlDoc :=
  { dts := [("Status", some "")]
    text := "Status\n\nStatus: Approved"
    links := []
    forms := []
    inputs := [] }

/-- An environment whose landing fetch returns HTTP 500. -/
def env500 : Env :=
  { landing := ⟨500, emptyDoc⟩, checkUrn := ⟨200, emptyDoc⟩, search := ⟨200, emptyDoc⟩ }

/-- An environment whose landing fetch returns HTTP 204 — a success (2xx)
status — while every later stage would go through fine. -/
def env204 : Env :=
  { landing := ⟨204, landingOkDoc⟩, checkUrn := ⟨200, emptyDoc⟩
    search := ⟨200, resultsApprovedDoc⟩ }

/-- An environment whose pipeline goes through and whose results page is
empty. -/
def envOkEmpty : Env :=
  { landing := ⟨200, landingOkDoc⟩, checkUrn := ⟨200, emptyDoc⟩
    search := ⟨200, emptyDoc⟩ }

/-- An environment whose pipeline goes through with an approved results
page. -/
def envOkApproved : Env :=
  { landing := ⟨200, landingOkDoc⟩, checkUrn := ⟨200, emptyDoc⟩
    search := ⟨200, resultsApprovedDoc⟩ }

/-- An environment whose form submission returns HTTP 500. -/
def envSearch500 : Env :=
  { landing := ⟨200, landingOkDoc⟩, checkUrn := ⟨200, emptyDoc⟩
    search := ⟨500, emptyDoc⟩ }

/-- An environment whose results page shows only the `"Not Applicable"`
deregistration date. -/
def envDeregNA : Env :=
  { landing := ⟨200, landingOkDoc⟩, checkUrn := ⟨200, emptyDoc⟩
    search := ⟨200, deregNADoc⟩ }

theorem isAsciiAlnum_toUpper (c : Char) : isAsciiAlnum c.toUpper = isAsciiAlnum c := by
  have h0 := Char.ofNat_toNat c
  unfold Char.toUpper
  by_cases h : c.toNat ≥ 97 ∧ c.toNat ≤ 122
  · rw [if_pos h, ← h0]
    obtain ⟨h1, h2⟩ := h
    generalize hT : c.toNat = n at h1 h2 ⊢
    interval_cases n <;> decide
  · rw [if_neg h]

theorem filter_upper_comm (l : List Char) :
    (l.map Char.toUpper).filter isAsciiAlnum =
      (l.filter isAsciiAlnum).map Char.toUpper := by
  induction l with
  | nil => rfl
  | cons c t ih =>
    simp only [List.map_cons, List.filter_cons, isAsciiAlnum_toUpper]
    cases h : isAsciiAlnum c <;> simp [h, ih]

/-- C6: `format_awrs` strips every character that is not a letter or digit
and uppercases the remainder; it regroups the result as 4-4-4-3 when it is
15 characters, 4 letters then 11 digits, and otherwise returns the input
trimmed and uppercased.  It is a total Lean function, so it always returns a
string without failing. -/
theorem c6_format_characterisation (urn : String) : format_awrs urn = format_spec urn := by
  unfold format_awrs format_spec stripUpper
  rw [filter_upper_comm]

/-- C2: `normalise_status` implements exactly the fixed table of the spec,
with `"approved"` and `"not applicable"` both mapping to `"Approved"`, the
empty string to `"Unknown"`, and any unmapped input returned trimmed but
otherwise unchanged. -/
theorem c2_normalise_table (raw : String) : normalise_status raw = normalise_spec raw := by
  unfold normalise_status normalise_spec
  generalize statusKey raw = s
  dsimp only
  split_ifs <;> simp_all

/-- C9: formatting a string already in canonical 15-character URN form a
second time reproduces the same canonical string: `format_awrs` is idempotent
on canonical inputs. -/
theorem c9_format_idempotent (x : String) (h : IsCanonical x) :
    format_awrs (format_awrs x) = format_awrs x := by
  obtain ⟨h1, h2, h3, h4⟩ := h
  have hx : format_awrs x = x := by
    unfold format_awrs
    rw [if_pos]
    · exact h4.symm
    · simp only [Bool.and_eq_true, decide_eq_true_eq]
      exact ⟨⟨h1, h2⟩, h3⟩
  rw [hx]
  exact hx

theorem c9_witness :
    IsCanonical "XAAW 0000 1234 567" ∧
      format_awrs (format_awrs "XAAW 0000 1234 567") = format_awrs "XAAW 0000 1234 567" :=
  ⟨by decide, c9_format_idempotent "XAAW 0000 1234 567" (by decide)⟩

/-- C3 fails as stated: in `emptyDdDoc` the definition-list strategy matches
the term `Status` but its definition is empty, and the source returns that
empty string at once, although the inline strategy would have produced the
non-empty `"Status: Approved"` — which is what the claimed
first-non-empty-result chain `extract_spec` returns. -/
theorem c3_counterexample :
    find_after_label "Status" emptyDdDoc = "" ∧
      strategyInline "Status" emptyDdDoc = some "Status: Approved" ∧
      extract_spec "Status" emptyDdDoc = "Status: Approved" := by
  decide

/-- C3 amended: `find_after_label` tries the three strategies in order and
returns the result of the first strategy that matches — a `dt` equal to the
label with a following `dd`, or a regex match — even when that result is the
empty string, so a matching strategy with an empty value shadows later ones;
the empty string is returned when no strategy matches at all. -/
theorem c3_first_matching_strategy (label : String) (doc : HtmlDoc) :
    find_after_label label doc =
      (((strategyDl label doc).orElse fun _ =>
        (strategyInline label doc).orElse fun _ =>
          strategyNextLine label doc).getD "") := by
  unfold find_after_label
  cases h1 : strategyDl label doc <;>
    cases h2 : strategyInline label doc <;>
      cases h3 : strategyNextLine label doc <;>
        simp [h1, h2, h3, Option.orElse]

/-- C4 fails as stated: HTTP 204 is a success (2xx) status, yet the landing
check `status_code != 200` turns it into an Error result, in an environment
(`env204`) where every later stage would have succeeded — shown by the same
environment with a 200 landing completing with `success = true`. -/
theorem c4_counterexample :
    (200 ≤ 204 ∧ 204 < 300) ∧
      env204.landing.statusCode = 204 ∧
      (lookup_single_awrs "XAAW 0000 1234 567" "Acme" env204 "ts").success = false ∧
      (lookup_single_awrs "XAAW 0000 1234 567" "Acme" env204 "ts").error =
        some "Failed to access HMRC website: 204" ∧
      (lookup_single_awrs "XAAW 0000 1234 567" "Acme"
        { env204 with landing := ⟨200, landingOkDoc⟩ } "ts").success = true := by
  decide

/-- C4 amended: at the landing fetch and at the form submission the code
branches on `status code = 200`, not on 2xx success: a non-200 landing
status yields the descriptive Error result immediately; with a 200 landing
and the form and text input found, a non-200 submission status yields the
submission Error result and a 200 submission status completes the lookup
with `success = true`. -/
theorem c4_status_code_branches (a s ts : String) (env : Env) :
    (env.landing.statusCode ≠ 200 →
      lookup_single_awrs a s env ts =
        errorResult ("Failed to access HMRC website: " ++ toString env.landing.statusCode)
          a s ts) ∧
    (env.landing.statusCode = 200 → formFound (navDoc env) = true →
      textInputFound (navDoc env) = true →
      (env.search.statusCode ≠ 200 →
        lookup_single_awrs a s env ts =
          errorResult ("Search failed with status: " ++ toString env.search.statusCode)
            a s ts) ∧
      (env.search.statusCode = 200 →
        (lookup_single_awrs a s env ts).success = true)) := by
  constructor
  · intro h
    unfold lookup_single_awrs
    rw [if_pos h]
  · intro hL hF hT
    constructor
    · intro hS
      unfold lookup_single_awrs
      rw [if_neg (by simp [hL]), if_neg (by simp [hF]), if_neg (by simp [hT]), if_pos hS]
    · intro hS
      unfold lookup_single_awrs
      rw [if_neg (by simp [hL]), if_neg (by simp [hF]), if_neg (by simp [hT]),
        if_neg (by simp [hS])]

theorem c4_witness :
    lookup_single_awrs "A" "B" env500 "ts" =
        errorResult "Failed to access HMRC website: 500" "A" "B" "ts" ∧
      lookup_single_awrs "A" "B" envSearch500 "ts" =
        errorResult "Search failed with status: 500" "A" "B" "ts" ∧
      (lookup_single_awrs "A" "B" envOkApproved "ts").success = true :=
  ⟨(c4_status_code_branches "A" "B" "ts" env500).1 (by decide),
   ((c4_status_code_branches "A" "B" "ts" envSearch500).2 (by decide) (by decide)
     (by decide)).1 (by decide),
   ((c4_status_code_branches "A" "B" "ts" envOkApproved).2 (by decide) (by decide)
     (by decide)).2 (by decide)⟩

/-- C5: in a lookup that reaches the results page, an extracted
deregistration date equal to `"not applicable"` after trimming and
lowercasing is blanked in the result, and when the normalised status at that
point is empty or `"Unknown"`, the returned status is forced to
`"Approved"`. -/
theorem c5_dereg_not_applicable (a s ts : String) (env : Env)
    (hL : env.landing.statusCode = 200)
    (hF : formFound (navDoc env) = true)
    (hT : textInputFound (navDoc env) = true)
    (hS : env.search.statusCode = 200)
    (hD : pyLower (pyStrip (deregExtracted env.search.doc)) = "not applicable") :
    (lookup_single_awrs a s env ts).deregistration_date = "" ∧
      (statusAfterNormalise env.search.doc = "" ∨
          statusAfterNormalise env.search.doc = "Unknown" →
        (lookup_single_awrs a s env ts).status = "Approved") := by
  have hne : ¬ deregExtracted env.search.doc = "" := by
    intro h0
    rw [h0] at hD
    exact absurd hD (by decide)
  have hNA : deregIsNA env.search.doc = true := by
    unfold deregIsNA
    simp [hne, hD]
  unfold lookup_single_awrs
  rw [if_neg (by simp [hL]), if_neg (by simp [hF]), if_neg (by simp [hT]),
    if_neg (by simp [hS])]
  constructor
  · show pyOrStr (deregFinal env.search.doc) "" = ""
    unfold deregFinal
    rw [if_pos hNA]
    rfl
  · intro hu
    show pyOrStr (statusFinal env.search.doc) "Unknown" = "Approved"
    unfold statusFinal
    rw [if_pos (by rcases hu with h | h <;> simp [hNA, h])]
    rfl

theorem c5_witness :
    (lookup_single_awrs "XAAW 0000 1234 567" "Acme" envDeregNA "ts").deregistration_date
        = "" ∧
      (lookup_single_awrs "XAAW 0000 1234 567" "Acme" envDeregNA "ts").status
        = "Approved" := by
  have h := c5_dereg_not_applicable "XAAW 0000 1234 567" "Acme" "ts" envDeregNA
    (by decide) (by decide) (by decide) (by decide) (by decide)
  exact ⟨h.1, h.2 (Or.inl (by decide))⟩

/-- C10: a successful lookup never returns an empty status: when no status
label was extracted and the deregistration special case did not fire, the
returned status is `"Unknown"`. -/
theorem c10_success_status_nonempty (a s ts : String) (env : Env)
    (h : (lookup_single_awrs a s env ts).success = true) :
    (lookup_single_awrs a s env ts).status ≠ "" ∧
      (extractedStatus env.search.doc = "" ∧ deregIsNA env.search.doc = false →
        (lookup_single_awrs a s env ts).status = "Unknown") := by
  unfold lookup_single_awrs at h ⊢
  split_ifs at h ⊢ with h1 h2 h3 h4
  all_goals try (simp only [errorResult] at h; exact Bool.noConfusion h)
  · constructor
    · show pyOrStr (statusFinal env.search.doc) "Unknown" ≠ ""
      unfold pyOrStr
      split_ifs with hx
      · decide
      · exact hx
    · rintro ⟨he, hd⟩
      have hs0 : statusAfterNormalise env.search.doc = "" := by
        unfold statusAfterNormalise
        rw [he]
        simp
      have hsf : statusFinal env.search.doc = "" := by
        unfold statusFinal
        rw [hd]
        simp [hs0]
      show pyOrStr (statusFinal env.search.doc) "Unknown" = "Unknown"
      rw [hsf]
      rfl

theorem c10_witness :
    (lookup_single_awrs "A" "B" envOkEmpty "ts").status ≠ "" ∧
      (lookup_single_awrs "A" "B" envOkEmpty "ts").status = "Unknown" := by
  have h := c10_success_status_nonempty "A" "B" "ts" envOkEmpty (by decide)
  exact ⟨h.1, h.2 ⟨by decide, by decide⟩⟩

theorem lookup_failure_fields (a s : String) (env : Env) (ts : String)
    (h : (lookup_single_awrs a s env ts).success = false) :
    (lookup_single_awrs a s env ts).status = "Error" ∧
      (lookup_single_awrs a s env ts).business_name = "" ∧
      (lookup_single_awrs a s env ts).address = "" ∧
      (lookup_single_awrs a s env ts).deregistration_date = "" ∧
      (lookup_single_awrs a s env ts).effective_date = "" ∧
      (lookup_single_awrs a s env ts).urn = "" := by
  unfold lookup_single_awrs at h ⊢
  split_ifs at h ⊢
  all_goals exact ⟨rfl, rfl, rfl, rfl, rfl, rfl⟩

theorem lookup_echoes (a s : String) (env : Env) (ts : String) :
    (lookup_single_awrs a s env ts).awrs_number = a ∧
      (lookup_single_awrs a s env ts).supplier_name = s := by
  unfold lookup_single_awrs
  split_ifs <;> exact ⟨rfl, rfl⟩

theorem resultJson_get (r : LookupResult) :
    jsonGet (resultJson r) "success" = some (.b r.success) ∧
      jsonGet (resultJson r) "status" = some (.s r.status) ∧
      jsonGet (resultJson r) "business_name" = some (.s r.business_name) ∧
      jsonGet (resultJson r) "address" = some (.s r.address) ∧
      jsonGet (resultJson r) "deregistration_date" = some (.s r.deregistration_date) ∧
      jsonGet (resultJson r) "effective_date" = some (.s r.effective_date) ∧
      jsonGet (resultJson r) "urn" = some (.s r.urn) ∧
      jsonGet (resultJson r) "awrs_number" = some (.s r.awrs_number) ∧
      jsonGet (resultJson r) "supplier_name" = some (.s r.supplier_name) := by
  cases he : r.error <;> simp only [resultJson, he] <;>
    exact ⟨rfl, rfl, rfl, rfl, rfl, rfl, rfl, rfl, rfl⟩

/-- C1: every `success = false` result of the lookup pipeline (its explicit
error returns and its exception fallback) and of the webhook endpoint has
`status = "Error"` and empty `business_name`, `address`,
`deregistration_date`, `effective_date` and `urn`. -/
theorem c1_failure_blank_invariant :
    (∀ a s env ts, (lookup_single_awrs a s env ts).success = false →
      (lookup_single_awrs a s env ts).status = "Error" ∧
        (lookup_single_awrs a s env ts).business_name = "" ∧
        (lookup_single_awrs a s env ts).address = "" ∧
        (lookup_single_awrs a s env ts).deregistration_date = "" ∧
        (lookup_single_awrs a s env ts).effective_date = "" ∧
        (lookup_single_awrs a s env ts).urn = "") ∧
    (∀ msg a s ts, (lookupExceptionResult msg a s ts).success = false ∧
      (lookupExceptionResult msg a s ts).status = "Error" ∧
        (lookupExceptionResult msg a s ts).business_name = "" ∧
        (lookupExceptionResult msg a s ts).address = "" ∧
        (lookupExceptionResult msg a s ts).deregistration_date = "" ∧
        (lookupExceptionResult msg a s ts).effective_date = "" ∧
        (lookupExceptionResult msg a s ts).urn = "") ∧
    (∀ d env ts, jsonGet (webhook_handler d env ts) "success" = some (.b false) →
      jsonGet (webhook_handler d env ts) "status" = some (.s "Error") ∧
        jsonGet (webhook_handler d env ts) "business_name" = some (.s "") ∧
        jsonGet (webhook_handler d env ts) "address" = some (.s "") ∧
        jsonGet (webhook_handler d env ts) "deregistration_date" = some (.s "") ∧
        jsonGet (webhook_handler d env ts) "effective_date" = some (.s "") ∧
        jsonGet (webhook_handler d env ts) "urn" = some (.s "")) := by
  refine ⟨fun a s env ts h => lookup_failure_fields a s env ts h,
    fun msg a s ts => ⟨rfl, rfl, rfl, rfl, rfl, rfl, rfl⟩, ?_⟩
  intro d env ts
  unfold webhook_handler
  dsimp only
  split_ifs with hA
  · intro _
    exact ⟨rfl, rfl, rfl, rfl, rfl, rfl⟩
  · intro hS
    obtain ⟨g1, g2, g3, g4, g5, g6, g7, g8, g9⟩ :=
      resultJson_get (lookup_single_awrs (pyStrip (d.awrs_number.getD ""))
        (d.supplier_name.getD "") env ts)
    rw [g1] at hS
    have hsucc : (lookup_single_awrs (pyStrip (d.awrs_number.getD ""))
        (d.supplier_name.getD "") env ts).success = false :=
      JVal.b.inj (Option.some.inj hS)
    obtain ⟨f1, f2, f3, f4, f5, f6⟩ := lookup_failure_fields _ _ _ _ hsucc
    rw [g2, g3, g4, g5, g6, g7, f1, f2, f3, f4, f5, f6]
    exact ⟨rfl, rfl, rfl, rfl, rfl, rfl⟩

theorem c1_witness :
    ((lookup_single_awrs "A" "B" env500 "ts").status = "Error" ∧
      (lookup_single_awrs "A" "B" env500 "ts").business_name = "" ∧
      (lookup_single_awrs "A" "B" env500 "ts").address = "" ∧
      (lookup_single_awrs "A" "B" env500 "ts").deregistration_date = "" ∧
      (lookup_single_awrs "A" "B" env500 "ts").effective_date = "" ∧
      (lookup_single_awrs "A" "B" env500 "ts").urn = "") ∧
    (jsonGet (webhook_handler ⟨some "X", none⟩ env500 "ts") "status" = some (.s "Error") ∧
      jsonGet (webhook_handler ⟨some "X", none⟩ env500 "ts") "business_name" = some (.s "") ∧
      jsonGet (webhook_handler ⟨some "X", none⟩ env500 "ts") "address" = some (.s "") ∧
      jsonGet (webhook_handler ⟨some "X", none⟩ env500 "ts") "deregistration_date"
        = some (.s "") ∧
      jsonGet (webhook_handler ⟨some "X", none⟩ env500 "ts") "effective_date"
        = some (.s "") ∧
      jsonGet (webhook_handler ⟨some "X", none⟩ env500 "ts") "urn" = some (.s "")) :=
  ⟨c1_failure_blank_invariant.1 "A" "B" env500 "ts" (by decide),
   c1_failure_blank_invariant.2.2 ⟨some "X", none⟩ env500 "ts" (by decide)⟩

/-- C7 fails as stated: the webhook's own error response — here for a body
with no `awrs_number` at all — carries neither an `awrs_number` nor a
`supplier_name` key, so not every `POST /` response echoes the input
fields. -/
theorem c7_counterexample :
    jsonGet (webhook_handler ⟨none, none⟩ envOkEmpty "ts") "awrs_number" = none ∧
      jsonGet (webhook_handler ⟨none, none⟩ envOkEmpty "ts") "supplier_name" = none ∧
      jsonGet (webhook_handler ⟨none, none⟩ envOkEmpty "ts") "success" =
        some (.b false) := by
  decide

/-- C7 amended: responses produced by invoking the lookup — every request
whose `awrs_number` survives trimming, whether the lookup succeeds or fails —
echo `awrs_number` and `supplier_name`; the endpoint's own short-circuit
response for a missing or empty `awrs_number` and its internal-exception
response omit both keys (while keeping the remaining LookupResult shape). -/
theorem c7_echo_fields :
    (∀ d env ts, pyStrip (d.awrs_number.getD "") ≠ "" →
      jsonGet (webhook_handler d env ts) "awrs_number" =
          some (.s (pyStrip (d.awrs_number.getD ""))) ∧
        jsonGet (webhook_handler d env ts) "supplier_name" =
          some (.s (d.supplier_name.getD ""))) ∧
    (∀ ts, jsonGet (noNumberJson ts) "awrs_number" = none ∧
      jsonGet (noNumberJson ts) "supplier_name" = none) ∧
    (∀ msg ts, jsonGet (handlerExceptionJson msg ts) "awrs_number" = none ∧
      jsonGet (handlerExceptionJson msg ts) "supplier_name" = none) := by
  refine ⟨?_, fun ts => ⟨rfl, rfl⟩, fun msg ts => ⟨rfl, rfl⟩⟩
  intro d env ts h
  unfold webhook_handler
  dsimp only
  rw [if_neg h]
  obtain ⟨g1, g2, g3, g4, g5, g6, g7, g8, g9⟩ :=
    resultJson_get (lookup_single_awrs (pyStrip (d.awrs_number.getD ""))
      (d.supplier_name.getD "") env ts)
  obtain ⟨e1, e2⟩ := lookup_echoes (pyStrip (d.awrs_number.getD ""))
    (d.supplier_name.getD "") env ts
  rw [g8, g9, e1, e2]
  exact ⟨rfl, rfl⟩

theorem c7_witness :
    jsonGet (webhook_handler ⟨some "XAAW 0000 1234 567", some "Acme"⟩ envOkApproved "ts")
        "awrs_number" = some (.s "XAAW 0000 1234 567") ∧
      jsonGet (webhook_handler ⟨some "XAAW 0000 1234 567", some "Acme"⟩ envOkApproved "ts")
        "supplier_name" = some (.s "Acme") :=
  c7_echo_fields.1 ⟨some "XAAW 0000 1234 567", some "Acme"⟩ envOkApproved "ts" (by decide)

/-- C8: a request whose `awrs_number` is missing or trims to the empty
string is answered by the fixed `"No AWRS number provided"` error response,
identically for every environment — the lookup pipeline is never invoked and
no outbound request is made. -/
theorem c8_empty_number_short_circuit (d : WebhookBody) (env env2 : Env) (ts : String)
    (h : pyStrip (d.awrs_number.getD "") = "") :
    webhook_handler d env ts = noNumberJson ts ∧
      webhook_handler d env ts = webhook_handler d env2 ts ∧
      jsonGet (webhook_handler d env ts) "success" = some (.b false) ∧
      jsonGet (webhook_handler d env ts) "error" =
        some (.s "No AWRS number provided") := by
  have h1 : webhook_handler d env ts = noNumberJson ts := by
    unfold webhook_handler
    dsimp only
    rw [if_pos h]
  have h2 : webhook_handler d env2 ts = noNumberJson ts := by
    unfold webhook_handler
    dsimp only
    rw [if_pos h]
  rw [h1, h2]
  exact ⟨rfl, rfl, rfl, rfl⟩

theorem c8_witness :
    webhook_handler ⟨some "   ", none⟩ envOkEmpty "ts" = noNumberJson "ts" ∧
      webhook_handler ⟨some "   ", none⟩ envOkEmpty "ts" =
        webhook_handler ⟨some "   ", none⟩ env500 "ts" ∧
      jsonGet (webhook_handler ⟨some "   ", none⟩ envOkEmpty "ts") "success" =
        some (.b false) ∧
      jsonGet (webhook_handler ⟨some "   ", none⟩ envOkEmpty "ts") "error" =
        some (.s "No AWRS number provided") :=
  c8_empty_number_short_circuit ⟨some "   ", none⟩ envOkEmpty env500 "ts" (by decide)
